import Mathlib

/-!
Verification of the weather-app request-gating and caching core.

The definitions below are a shallow embedding of the TypeScript sources:
  * `src/middleware.ts`        — rate limiter, tier selection, matcher config
  * `src/app/api/weather/route.ts` — city validation, in-memory cache, upstream fetch
  * `src/lib/config.ts`        — trusted-host check
  * `src/lib/errors.ts`        — error hierarchy and central error handler

JS `Date.now()` timestamps are modelled as `Nat` milliseconds; the shared
mutable maps are modelled as explicit state passed in and out of each
operation.  JS strings are modelled by Lean `String`, with `includes` /
`startsWith` / `endsWith` expressed on the underlying character list.
-/

/-! ## Rate limiter (`src/middleware.ts`) -/

/-- `RateLimitEntry` from middleware.ts: one record per client key. -/
structure RateLimitEntry where
  count : Nat
  resetTime : Nat
  lastRequest : Nat
  blockedUntil : Option Nat
deriving DecidableEq

/-- One tier of `RATE_LIMIT_CONFIG` (maxRequests, windowMs, blockDuration). -/
structure TierConfig where
  maxRequests : Nat
  windowMs : Nat
  blockDuration : Nat
deriving DecidableEq

/-- `RATE_LIMIT_CONFIG.general`: 100 requests / 15 min window / 5 min block. -/
def RATE_LIMIT_CONFIG_general : TierConfig :=
  { maxRequests := 100, windowMs := 15 * 60 * 1000, blockDuration := 5 * 60 * 1000 }

/-- `RATE_LIMIT_CONFIG.api`: 50 requests / 5 min window / 10 min block. -/
def RATE_LIMIT_CONFIG_api : TierConfig :=
  { maxRequests := 50, windowMs := 5 * 60 * 1000, blockDuration := 10 * 60 * 1000 }

/-- `RATE_LIMIT_CONFIG.search`: 30 requests / 1 min window / 2 min block. -/
def RATE_LIMIT_CONFIG_search : TierConfig :=
  { maxRequests := 30, windowMs := 1 * 60 * 1000, blockDuration := 2 * 60 * 1000 }

/-- Return value of `checkRateLimit` in middleware.ts. -/
structure RateLimitResult where
  allowed : Bool
  retryAfter : Option Nat
  blockRemaining : Option Nat
deriving DecidableEq

/-- `checkRateLimit` from middleware.ts, for one client key, with the
`rateLimitMap` entry for that key passed in and the updated entry returned.
`now < e.blockedUntil.getD 0` models the JS truthiness guard
`clientData?.blockedUntil && now < clientData.blockedUntil` (an absent
`blockedUntil` behaves like `0`, and `now < 0` is false either way).
`Math.ceil(x / 1000)` on a natural `x` is `(x + 999) / 1000`. -/
def checkRateLimit (cfg : TierConfig) (entry? : Option RateLimitEntry) (now : Nat) :
    RateLimitResult × Option RateLimitEntry :=
  match entry? with
  | some clientData =>
    if now < clientData.blockedUntil.getD 0 then
      ({ allowed := false, retryAfter := none,
         blockRemaining := some ((clientData.blockedUntil.getD 0 - now + 999) / 1000) },
       some clientData)
    else if clientData.resetTime < now then
      ({ allowed := true, retryAfter := none, blockRemaining := none },
       some { count := 1, resetTime := now + cfg.windowMs, lastRequest := now,
              blockedUntil := none })
    else if cfg.maxRequests ≤ clientData.count then
      ({ allowed := false, retryAfter := some ((cfg.blockDuration + 999) / 1000),
         blockRemaining := none },
       some { clientData with blockedUntil := some (now + cfg.blockDuration) })
    else
      ({ allowed := true, retryAfter := none, blockRemaining := none },
       some { clientData with count := clientData.count + 1, lastRequest := now })
  | none =>
    ({ allowed := true, retryAfter := none, blockRemaining := none },
     some { count := 1, resetTime := now + cfg.windowMs, lastRequest := now,
            blockedUntil := none })

/-- Run a sequence of `checkRateLimit` calls for one client key at the given
times; returns whether every call was allowed, together with the final map
entry for the key. -/
def runChecks (cfg : TierConfig) : Option RateLimitEntry → List Nat → Bool × Option RateLimitEntry
  | s, [] => (true, s)
  | s, now :: rest =>
    let step := checkRateLimit cfg s now
    let later := runChecks cfg step.2 rest
    (step.1.allowed && later.1, later.2)

/-- JS `String.prototype.includes`, on character lists. -/
def includesAux (needle : List Char) : List Char → Bool
  | [] => needle.isPrefixOf []
  | c :: rest => needle.isPrefixOf (c :: rest) || includesAux needle rest

/-- `getRateLimitConfig` from middleware.ts: tier selection by request path. -/
def getRateLimitConfig (path : String) : TierConfig :=
  if "/api/weather".data.isPrefixOf path.data then
    RATE_LIMIT_CONFIG_api
  else if includesAux "search".data path.data || includesAux "suggest".data path.data then
    RATE_LIMIT_CONFIG_search
  else
    RATE_LIMIT_CONFIG_general

/-- The exported `config.matcher` of middleware.ts,
`'/((?!api|_next/static|_next/image|favicon.ico|robots.txt|sitemap.xml).*)'`:
the middleware runs on a path exactly when the path starts with `/` and the
remainder does not start with any of the six excluded alternatives. -/
def middlewareMatches (path : String) : Bool :=
  match path.data with
  | [] => false
  | c :: rest =>
    c == '/'
    && !("api".data.isPrefixOf rest)
    && !("_next/static".data.isPrefixOf rest)
    && !("_next/image".data.isPrefixOf rest)
    && !("favicon.ico".data.isPrefixOf rest)
    && !("robots.txt".data.isPrefixOf rest)
    && !("sitemap.xml".data.isPrefixOf rest)

/-! ## Trusted hosts (`src/lib/config.ts`) -/

/-- `isTrustedHost` from config.ts, with the configured `trustedHosts` list
passed explicitly.  JS `host.endsWith('.' + trustedHost)` is the suffix test
on the character list. -/
def isTrustedHost (trustedHosts : List String) (host : String) : Bool :=
  trustedHosts.any fun trustedHost =>
    host == trustedHost || ("." ++ trustedHost).data.isSuffixOf host.data

/-! ## Error taxonomy (`src/lib/errors.ts`) -/

/-- `ApiError` and its subclasses, flattened into one record: the subclass
fields `externalService` / `externalStatusCode` of `ExternalApiError` are
`none` for every other error kind. -/
structure ApiError where
  name : String
  message : String
  statusCode : Nat
  isOperational : Bool
  code : Option String
  externalService : Option String
  externalStatusCode : Option Nat
deriving DecidableEq

/-- `new ValidationError(message)`: HTTP 400, code VALIDATION_ERROR. -/
def ValidationError (message : String) : ApiError :=
  { name := "ValidationError", message := message, statusCode := 400,
    isOperational := true, code := some "VALIDATION_ERROR",
    externalService := none, externalStatusCode := none }

/-- `new NotFoundError(message)`: HTTP 404, code NOT_FOUND. -/
def NotFoundError (message : String) : ApiError :=
  { name := "NotFoundError", message := message, statusCode := 404,
    isOperational := true, code := some "NOT_FOUND",
    externalService := none, externalStatusCode := none }

/-- `new ExternalApiError(message, externalService, externalStatusCode?)`:
HTTP 502, code EXTERNAL_API_ERROR. -/
def ExternalApiError (message externalService : String)
    (externalStatusCode : Option Nat) : ApiError :=
  { name := "ExternalApiError", message := message, statusCode := 502,
    isOperational := true, code := some "EXTERNAL_API_ERROR",
    externalService := some externalService,
    externalStatusCode := externalStatusCode }

/-- The `unknown` value caught by the endpoint handler: either one of the
typed `ApiError`s, a plain JS `Error` carrying a message, or a non-Error
value. -/
inductive ThrownError where
  | api (e : ApiError)
  | jsError (message : String)
  | nonError
deriving DecidableEq

/-- `handleError` from errors.ts: an `ApiError` passes through unchanged; a
plain `Error` is classified by substrings of its message; anything else
becomes a generic 500. -/
def handleError : ThrownError → ApiError
  | .api e => e
  | .jsError message =>
    if includesAux "fetch".data message.data || includesAux "network".data message.data then
      ExternalApiError "Network error occurred while fetching weather data"
        "OpenWeather API" none
    else if includesAux "timeout".data message.data || includesAux "abort".data message.data then
      ExternalApiError "Request timeout while fetching weather data"
        "OpenWeather API" none
    else
      { name := "Error", message := message, statusCode := 500,
        isOperational := true, code := some "INTERNAL_ERROR",
        externalService := none, externalStatusCode := none }
  | .nonError =>
      { name := "Error", message := "An unexpected error occurred", statusCode := 500,
        isOperational := true, code := some "UNKNOWN_ERROR",
        externalService := none, externalStatusCode := none }

/-! ## Weather data and cache (`src/app/api/weather/route.ts`) -/

/-- `WeatherData.main` — numeric fields are treated as opaque pass-through
data by the core, so JS numbers are modelled as integers. -/
structure WeatherMain where
  temp : Int
  feels_like : Int
  humidity : Int
  pressure : Int
deriving DecidableEq

/-- One element of `WeatherData.weather`. -/
structure WeatherCondition where
  main : String
  description : String
  icon : String
deriving DecidableEq

/-- `WeatherData.wind`. -/
structure WeatherWind where
  speed : Int
  deg : Int
deriving DecidableEq

/-- `WeatherData.sys`. -/
structure WeatherSys where
  country : String
  sunrise : Int
  sunset : Int
deriving DecidableEq

/-- `WeatherData.coord`. -/
structure WeatherCoord where
  lat : Int
  lon : Int
deriving DecidableEq

/-- The `WeatherData` interface of route.ts. -/
structure WeatherData where
  name : String
  main : WeatherMain
  weather : List WeatherCondition
  wind : WeatherWind
  sys : WeatherSys
  coord : WeatherCoord
deriving DecidableEq

/-- One value of the in-memory `cache` map: `{ data, timestamp }`. -/
structure CachedItem where
  data : WeatherData
  timestamp : Nat
deriving DecidableEq

/-- The JS `Map<string, CachedItem>`, modelled as an insertion-ordered
association list with (invariantly) pairwise-distinct keys. -/
abbrev CacheMap := List (String × CachedItem)

/-- `Map.prototype.get`. -/
def mapGet (k : String) : CacheMap → Option CachedItem
  | [] => none
  | (k', v) :: rest => if k' == k then some v else mapGet k rest

/-- `Map.prototype.set`: overwrite in place if the key exists (keeping
insertion order), otherwise append. -/
def mapSet (k : String) (v : CachedItem) : CacheMap → CacheMap
  | [] => [(k, v)]
  | (k', v') :: rest => if k' == k then (k', v) :: rest else (k', v') :: mapSet k v rest

/-- `Map.prototype.delete` (keys are pairwise distinct in a JS map). -/
def mapDelete (k : String) (c : CacheMap) : CacheMap :=
  c.filter fun e => e.1 != k

/-- The comparator `(a, b) => a[1].timestamp - b[1].timestamp` used to sort
cache entries ascending by `storedAt`. -/
def olderFirst (a b : String × CachedItem) : Prop :=
  a.2.timestamp ≤ b.2.timestamp

instance : DecidableRel olderFirst := fun a b => Nat.decLe a.2.timestamp b.2.timestamp

instance : IsTotal (String × CachedItem) olderFirst :=
  ⟨fun a b => Nat.le_total a.2.timestamp b.2.timestamp⟩

instance : IsTrans (String × CachedItem) olderFirst :=
  ⟨fun _ _ _ => Nat.le_trans⟩

/-- `Math.ceil(maxSize * 0.1)`, the batch size of the eviction loop in
`setCachedData`.  For a natural `maxSize` below `2 ^ 49` the JS float
computation agrees with the rational ceiling `⌈maxSize / 10⌉`. -/
def evictBatch (maxSize : Nat) : Nat :=
  (maxSize + 9) / 10

/-- The eviction branch of `setCachedData`: sort the entries ascending by
timestamp (JS `Array.prototype.sort` is stable) and delete the first
`Math.ceil(maxSize * 0.1)` keys from the map. -/
def evictOldest (maxSize : Nat) (cache : CacheMap) : CacheMap :=
  let entries := List.insertionSort olderFirst cache
  (entries.take (evictBatch maxSize)).foldl (fun c e => mapDelete e.1 c) cache

/-- `setCachedData` from route.ts, with `config.enableCache` /
`config.cacheMaxSize` and the cache state passed explicitly. -/
def setCachedData (enableCache : Bool) (cacheMaxSize : Nat) (cache : CacheMap)
    (cacheKey : String) (data : WeatherData) (now : Nat) : CacheMap :=
  if !enableCache then cache
  else
    let cache' := if cacheMaxSize ≤ cache.length then evictOldest cacheMaxSize cache else cache
    mapSet cacheKey { data := data, timestamp := now } cache'

/-- `getCachedData` from route.ts: returns the hit (if any) and the updated
cache state (an expired entry is deleted).  `cacheAge > maxAge` is
`cacheTtlSeconds * 1000 < now - cached.timestamp`; truncated `Nat`
subtraction agrees with JS here, since a negative JS age also fails the
`>` test. -/
def getCachedData (enableCache : Bool) (cacheTtlSeconds : Nat) (cache : CacheMap)
    (cacheKey : String) (now : Nat) : Option WeatherData × CacheMap :=
  if !enableCache then (none, cache)
  else
    match mapGet cacheKey cache with
    | none => (none, cache)
    | some cached =>
      if cacheTtlSeconds * 1000 < now - cached.timestamp then
        (none, mapDelete cacheKey cache)
      else
        (some cached.data, cache)

/-! ## City validation (`src/app/api/weather/route.ts`) -/

/-- The character class matched by the JS regex `\s` (the whitespace class
used both by `String.prototype.trim` and by the sanitization regex). -/
def jsWhitespace (c : Char) : Bool :=
  c == '\t' || c == '\n' || c == '\x0b' || c == '\x0c' || c == '\r' || c == ' '
  || c == '\u00a0' || c == '\u1680'
  || ('\u2000' ≤ c && c ≤ '\u200a')
  || c == '\u2028' || c == '\u2029' || c == '\u202f'
  || c == '\u205f' || c == '\u3000' || c == '\ufeff'

/-- The character class `[a-zA-Z\s\-']` kept by the sanitization regex
`city.replace(/[^a-zA-Z\s\-']/g, '')` in `validateCity`; the `a-z` and
`A-Z` ranges are compared on code points. -/
def allowedCityChar (c : Char) : Bool :=
  ('a'.toNat ≤ c.toNat && c.toNat ≤ 'z'.toNat)
  || ('A'.toNat ≤ c.toNat && c.toNat ≤ 'Z'.toNat)
  || jsWhitespace c || c == '-' || c == '\''

/-- JS `String.prototype.trim`, on the character list. -/
def jsTrim (l : List Char) : List Char :=
  ((l.dropWhile jsWhitespace).reverse.dropWhile jsWhitespace).reverse

/-- `validateCity` from route.ts.  The JS `!city` guard on a string argument
is the empty-string test; `city.length` counts UTF-16 code units, which for
the strings in scope equals the character count. -/
def validateCity (city : String) : Except ApiError Unit :=
  if city.data == [] then
    .error (ValidationError "City parameter is required and must be a string")
  else if (jsTrim city.data).length == 0 then
    .error (ValidationError "City parameter cannot be empty")
  else if 100 < city.length then
    .error (ValidationError "City name is too long (max 100 characters)")
  else if city.data.filter allowedCityChar == city.data then
    .ok ()
  else
    .error (ValidationError "City name contains invalid characters")

/-! ## Upstream fetch (`src/app/api/weather/route.ts`) -/

/-- The upstream provider's reply: HTTP status plus the parsed JSON body
(`none` models a body that is not an object, rejected by the structure
check). -/
structure UpstreamResponse where
  status : Nat
  body : Option WeatherData
deriving DecidableEq

/-- Outcome of the outbound `fetch`: either a response arrived, or the
10-second `AbortController` timeout fired. -/
inductive FetchOutcome where
  | response (resp : UpstreamResponse)
  | aborted
deriving DecidableEq

/-- JS `Response.ok`: status in the range 200–299. -/
def responseOk (status : Nat) : Bool :=
  200 ≤ status && status < 300

/-- `fetchWeatherData` from route.ts, as a function of the upstream outcome:
maps upstream failures to the typed errors thrown by the source. -/
def fetchWeatherData (city : String) : FetchOutcome → Except ApiError WeatherData
  | .aborted =>
    .error (ExternalApiError "Request timeout while fetching weather data"
      "OpenWeather API" none)
  | .response resp =>
    if !responseOk resp.status then
      if resp.status == 404 then
        .error (NotFoundError ("City \"" ++ city ++ "\" not found"))
      else if resp.status == 401 then
        .error (ExternalApiError "Invalid API key for OpenWeather service"
          "OpenWeather API" (some resp.status))
      else if resp.status == 429 then
        .error (ExternalApiError "OpenWeather API rate limit exceeded"
          "OpenWeather API" (some resp.status))
      else
        .error (ExternalApiError ("OpenWeather API returned status " ++ toString resp.status)
          "OpenWeather API" (some resp.status))
    else
      match resp.body with
      | none =>
        .error (ExternalApiError "Invalid response format from OpenWeather API"
          "OpenWeather API" none)
      | some data => .ok data

/-! ## Rate-limiter lemmas -/

set_option maxRecDepth 4000

/-- While an entry is not blocked, its window has not expired and its count
is strictly below the tier limit, a check increments the count and allows. -/
theorem checkRateLimit_increment (cfg : TierConfig) (e : RateLimitEntry) (now : Nat)
    (hb : e.blockedUntil = none) (hwin : now ≤ e.resetTime)
    (hcount : e.count < cfg.maxRequests) :
    checkRateLimit cfg (some e) now =
      ({ allowed := true, retryAfter := none, blockRemaining := none },
       some { e with count := e.count + 1, lastRequest := now }) := by
  simp only [checkRateLimit, hb, Option.getD_none]
  have h1 : ¬ now < 0 := Nat.not_lt_zero now
  have h2 : ¬ e.resetTime < now := Nat.not_lt.mpr hwin
  have h3 : ¬ cfg.maxRequests ≤ e.count := Nat.not_le.mpr hcount
  simp [h1, h2, h3]

/-- While an entry is blocked, a check denies with the remaining block time
(in seconds, rounded up) and leaves the entry unchanged. -/
theorem checkRateLimit_blocked (cfg : TierConfig) (e : RateLimitEntry) (b now : Nat)
    (hb : e.blockedUntil = some b) (h : now < b) :
    checkRateLimit cfg (some e) now =
      ({ allowed := false, retryAfter := none,
         blockRemaining := some ((b - now + 999) / 1000) }, some e) := by
  simp [checkRateLimit, hb, h]

/-- Once the window has expired (and any block is over), a check resets the
entry to a fresh window with count 1 and allows. -/
theorem checkRateLimit_reset (cfg : TierConfig) (e : RateLimitEntry) (now : Nat)
    (hnb : ¬ now < e.blockedUntil.getD 0) (h : e.resetTime < now) :
    checkRateLimit cfg (some e) now =
      ({ allowed := true, retryAfter := none, blockRemaining := none },
       some { count := 1, resetTime := now + cfg.windowMs, lastRequest := now,
              blockedUntil := none }) := by
  simp [checkRateLimit, hnb, h]

/-- With the window still open, no active block, and the count at or above
the tier limit, a check denies and (re)blocks for `blockDuration`. -/
theorem checkRateLimit_deny (cfg : TierConfig) (e : RateLimitEntry) (now : Nat)
    (hnb : ¬ now < e.blockedUntil.getD 0) (hwin : now ≤ e.resetTime)
    (hcount : cfg.maxRequests ≤ e.count) :
    checkRateLimit cfg (some e) now =
      ({ allowed := false, retryAfter := some ((cfg.blockDuration + 999) / 1000),
         blockRemaining := none },
       some { e with blockedUntil := some (now + cfg.blockDuration) }) := by
  have h2 : ¬ e.resetTime < now := Nat.not_lt.mpr hwin
  simp [checkRateLimit, hnb, h2, hcount]

/-- Running checks from an unblocked entry, all within its window, with room
for all of them under the tier limit: every check is allowed, the count
increases by the number of checks, and the window is unchanged. -/
theorem runChecks_within_window (cfg : TierConfig) (ts : List Nat) :
    ∀ e : RateLimitEntry, e.blockedUntil = none → (∀ t ∈ ts, t ≤ e.resetTime) →
      e.count + ts.length ≤ cfg.maxRequests →
      (runChecks cfg (some e) ts).1 = true ∧
      ∃ lr, (runChecks cfg (some e) ts).2 =
        some { count := e.count + ts.length, resetTime := e.resetTime,
               lastRequest := lr, blockedUntil := none } := by
  induction ts with
  | nil =>
    intro e hb _ _
    refine ⟨rfl, e.lastRequest, ?_⟩
    cases e with
    | mk count resetTime lastRequest blockedUntil =>
      simp only at hb
      simp [runChecks, hb]
  | cons t ts ih =>
    intro e hb hts hcount
    have hstep := checkRateLimit_increment cfg e t hb (hts t (by simp))
      (by simp only [List.length_cons] at hcount; omega)
    have hrun1 : (runChecks cfg (some e) (t :: ts)).1 =
        ((checkRateLimit cfg (some e) t).1.allowed &&
          (runChecks cfg (checkRateLimit cfg (some e) t).2 ts).1) := rfl
    have hrun2 : (runChecks cfg (some e) (t :: ts)).2 =
        (runChecks cfg (checkRateLimit cfg (some e) t).2 ts).2 := rfl
    rw [hrun1, hrun2, hstep]
    have hrest := ih { e with count := e.count + 1, lastRequest := t }
      (by simp [hb]) (fun u hu => hts u (by simp [hu]))
      (by simp only [List.length_cons] at hcount; simp; omega)
    obtain ⟨hall, lr, hfin⟩ := hrest
    refine ⟨by simp [hall], lr, ?_⟩
    rw [hfin]
    have : e.count + 1 + ts.length = e.count + (ts.length + 1) := by omega
    simp [this]

/-- **C1.** The claim says every request whose path starts with
`/api/weather` is processed by the gating middleware under the `api` tier.
Tier selection (`getRateLimitConfig`) would indeed pick the `api` tier for
that path, but the exported matcher excludes every path starting with
`/api`, so the gating middleware never runs for the weather API; by
contrast a plain page path is matched.  This evaluates the code at the
failing input `/api/weather`. -/
theorem weatherApi_not_gated :
    getRateLimitConfig "/api/weather" = RATE_LIMIT_CONFIG_api ∧
    middlewareMatches "/api/weather" = false ∧
    middlewareMatches "/about" = true := by
  refine ⟨by decide, by decide, by decide⟩

/-- **C2.** For every tier (whose block duration is a whole number of
seconds, as all three configured tiers are): starting fresh, after exactly
`maxRequests` allowed checks within one window, the next check in that
window is denied, the entry's `blockedUntil` is set to
`now + blockDuration`, and the result carries
`retryAfter = blockDuration / 1000` seconds. -/
theorem rateLimit_denies_after_max (cfg : TierConfig) (t0 tNext : Nat) (ts : List Nat)
    (hts : ∀ t ∈ ts, t ≤ t0 + cfg.windowMs)
    (hlen : 1 + ts.length = cfg.maxRequests)
    (hNext : tNext ≤ t0 + cfg.windowMs)
    (hdiv : cfg.blockDuration % 1000 = 0) :
    (runChecks cfg none (t0 :: ts)).1 = true ∧
    ∃ e, (runChecks cfg none (t0 :: ts)).2 = some e ∧
      e.count = cfg.maxRequests ∧
      checkRateLimit cfg (some e) tNext =
        ({ allowed := false, retryAfter := some (cfg.blockDuration / 1000),
           blockRemaining := none },
         some { e with blockedUntil := some (tNext + cfg.blockDuration) }) := by
  have h0 : checkRateLimit cfg none t0 =
      ({ allowed := true, retryAfter := none, blockRemaining := none },
       some { count := 1, resetTime := t0 + cfg.windowMs, lastRequest := t0,
              blockedUntil := none }) := by
    simp [checkRateLimit]
  have hrun1 : (runChecks cfg none (t0 :: ts)).1 =
      ((checkRateLimit cfg none t0).1.allowed &&
        (runChecks cfg (checkRateLimit cfg none t0).2 ts).1) := rfl
  have hrun2 : (runChecks cfg none (t0 :: ts)).2 =
      (runChecks cfg (checkRateLimit cfg none t0).2 ts).2 := rfl
  have hrest := runChecks_within_window cfg ts
    { count := 1, resetTime := t0 + cfg.windowMs, lastRequest := t0, blockedUntil := none }
    rfl (by simpa using hts) (by simp; omega)
  obtain ⟨hall, lr, hfin⟩ := hrest
  rw [hrun1, hrun2, h0]
  simp only at hfin ⊢
  refine ⟨by simp [hall], ?_⟩
  refine ⟨_, hfin, by simp; omega, ?_⟩
  have hdeny := checkRateLimit_deny cfg
    { count := 1 + ts.length, resetTime := t0 + cfg.windowMs, lastRequest := lr,
      blockedUntil := none } tNext
    (by simp) (by simpa using hNext) (by simp; omega)
  rw [hdeny]
  have : (cfg.blockDuration + 999) / 1000 = cfg.blockDuration / 1000 := by omega
  rw [this]

/-- **C2 witness.** The api tier: 50 allowed checks at time 0, then a check
at time 1000 within the window is denied, blocked for 600000 ms with
`retryAfter = 600` seconds. -/
theorem rateLimit_denies_after_max_witness :
    (runChecks RATE_LIMIT_CONFIG_api none (0 :: List.replicate 49 0)).1 = true ∧
    ∃ e, (runChecks RATE_LIMIT_CONFIG_api none (0 :: List.replicate 49 0)).2 = some e ∧
      e.count = RATE_LIMIT_CONFIG_api.maxRequests ∧
      checkRateLimit RATE_LIMIT_CONFIG_api (some e) 1000 =
        ({ allowed := false, retryAfter := some (RATE_LIMIT_CONFIG_api.blockDuration / 1000),
           blockRemaining := none },
         some { e with blockedUntil := some (1000 + RATE_LIMIT_CONFIG_api.blockDuration) }) :=
  rateLimit_denies_after_max RATE_LIMIT_CONFIG_api 0 1000 (List.replicate 49 0)
    (by decide) (by decide) (by decide) (by decide)

/-- **C3 counterexample.** In the general tier (block 5 min < window 15 min)
the claim "for every tier the first check at `now ≥ blockedUntil` behaves as
Fresh (count reset to 1, allowed)" fails.  An actual run — 100 allowed
checks at time 0, a denied check at time 100000 that sets
`blockedUntil = 400000` — reaches a state where the check at
`now = 400000 ≥ blockedUntil` is denied and the entry is not reset. -/
theorem blocked_expiry_not_fresh_counterexample :
    (runChecks RATE_LIMIT_CONFIG_general none (List.replicate 100 0 ++ [100000])).2 =
      some { count := 100, resetTime := 900000, lastRequest := 0,
             blockedUntil := some 400000 } ∧
    (400000 : Nat) ≤ 400000 ∧
    (checkRateLimit RATE_LIMIT_CONFIG_general
        (some { count := 100, resetTime := 900000, lastRequest := 0,
                blockedUntil := some 400000 }) 400000).1.allowed = false ∧
    (checkRateLimit RATE_LIMIT_CONFIG_general
        (some { count := 100, resetTime := 900000, lastRequest := 0,
                blockedUntil := some 400000 }) 400000).2 ≠
      some { count := 1, resetTime := 400000 + RATE_LIMIT_CONFIG_general.windowMs,
             lastRequest := 400000, blockedUntil := none } := by
  refine ⟨by decide, by decide, by decide, by decide⟩

/-- **C3 (amended).** For every client key with `blockedUntil = some b`:
every check at `now < b` is denied with
`blockRemainingSeconds = ceil((b - now) / 1000)` and no state change; the
first check at `now ≥ b` falls through to the window check — when the
window has also expired (`now > resetTime`) the entry behaves as Fresh
(reset to count 1 with a new window, allowed), while with the window still
open and the count at the limit (possible only when the block is shorter
than the window, i.e. the general tier) the check is denied and the key is
re-blocked. -/
theorem blocked_deny_then_fallthrough (cfg : TierConfig) (e : RateLimitEntry) (b now : Nat)
    (hb : e.blockedUntil = some b) :
    (now < b →
      checkRateLimit cfg (some e) now =
        ({ allowed := false, retryAfter := none,
           blockRemaining := some ((b - now + 999) / 1000) }, some e)) ∧
    (b ≤ now → e.resetTime < now →
      checkRateLimit cfg (some e) now =
        ({ allowed := true, retryAfter := none, blockRemaining := none },
         some { count := 1, resetTime := now + cfg.windowMs, lastRequest := now,
                blockedUntil := none })) ∧
    (b ≤ now → now ≤ e.resetTime → cfg.maxRequests ≤ e.count →
      checkRateLimit cfg (some e) now =
        ({ allowed := false, retryAfter := some ((cfg.blockDuration + 999) / 1000),
           blockRemaining := none },
         some { e with blockedUntil := some (now + cfg.blockDuration) })) := by
  refine ⟨fun h => checkRateLimit_blocked cfg e b now hb h,
    fun h1 h2 => checkRateLimit_reset cfg e now (by simp [hb]; omega) h2,
    fun h1 h2 h3 => checkRateLimit_deny cfg e now (by simp [hb]; omega) h2 h3⟩

/-- **C3 (amended) witness.** The three branches at concrete states: blocked
at 100000 < 400000; expired block and expired window at 1000000; expired
block inside the window at 400000 (the general tier re-block). -/
theorem blocked_deny_then_fallthrough_witness :
    ((100000 : Nat) < 400000 →
      checkRateLimit RATE_LIMIT_CONFIG_general
          (some { count := 100, resetTime := 900000, lastRequest := 0,
                  blockedUntil := some 400000 }) 100000 =
        ({ allowed := false, retryAfter := none,
           blockRemaining := some ((400000 - 100000 + 999) / 1000) },
         some { count := 100, resetTime := 900000, lastRequest := 0,
                blockedUntil := some 400000 })) ∧
    ((400000 : Nat) ≤ 1000000 →
      (900000 : Nat) < 1000000 →
      checkRateLimit RATE_LIMIT_CONFIG_general
          (some { count := 100, resetTime := 900000, lastRequest := 0,
                  blockedUntil := some 400000 }) 1000000 =
        ({ allowed := true, retryAfter := none, blockRemaining := none },
         some { count := 1, resetTime := 1000000 + RATE_LIMIT_CONFIG_general.windowMs,
                lastRequest := 1000000, blockedUntil := none })) ∧
    ((400000 : Nat) ≤ 400000 →
      (400000 : Nat) ≤ 900000 →
      RATE_LIMIT_CONFIG_general.maxRequests ≤ 100 →
      checkRateLimit RATE_LIMIT_CONFIG_general
          (some { count := 100, resetTime := 900000, lastRequest := 0,
                  blockedUntil := some 400000 }) 400000 =
        ({ allowed := false,
           retryAfter := some ((RATE_LIMIT_CONFIG_general.blockDuration + 999) / 1000),
           blockRemaining := none },
         some { count := 100, resetTime := 900000, lastRequest := 0,
                blockedUntil := some (400000 + RATE_LIMIT_CONFIG_general.blockDuration) })) := by
  have h1 := blocked_deny_then_fallthrough RATE_LIMIT_CONFIG_general
    { count := 100, resetTime := 900000, lastRequest := 0, blockedUntil := some 400000 }
    400000 100000 rfl
  have h2 := blocked_deny_then_fallthrough RATE_LIMIT_CONFIG_general
    { count := 100, resetTime := 900000, lastRequest := 0, blockedUntil := some 400000 }
    400000 1000000 rfl
  have h3 := blocked_deny_then_fallthrough RATE_LIMIT_CONFIG_general
    { count := 100, resetTime := 900000, lastRequest := 0, blockedUntil := some 400000 }
    400000 400000 rfl
  exact ⟨h1.1, h2.2.1, fun ha hb hc => h3.2.2 ha hb hc⟩

/-- **C9.** In the general tier — the one tier whose block duration (5 min)
is shorter than its window (15 min) — a key whose block has expired
(`b ≤ now`) but whose window has not (`now ≤ resetTime`) and whose count is
at the limit is denied again and `blockedUntil` is overwritten with
`now + blockDuration`, so denial repeats instead of the key becoming
Fresh. -/
theorem general_tier_reblocks (e : RateLimitEntry) (b now : Nat)
    (hb : e.blockedUntil = some b) (hexp : b ≤ now) (hwin : now ≤ e.resetTime)
    (hcount : RATE_LIMIT_CONFIG_general.maxRequests ≤ e.count) :
    RATE_LIMIT_CONFIG_general.blockDuration < RATE_LIMIT_CONFIG_general.windowMs ∧
    checkRateLimit RATE_LIMIT_CONFIG_general (some e) now =
      ({ allowed := false, retryAfter := some 300, blockRemaining := none },
       some { e with blockedUntil := some (now + 300000) }) := by
  have hdeny := checkRateLimit_deny RATE_LIMIT_CONFIG_general e now
    (by simp [hb]; omega) hwin hcount
  exact ⟨by decide, hdeny⟩

/-- **C9 witness.** A key blocked until 500000 in a window open until
900000 with count 100 is re-blocked at time 600000 until 900000. -/
theorem general_tier_reblocks_witness :
    RATE_LIMIT_CONFIG_general.blockDuration < RATE_LIMIT_CONFIG_general.windowMs ∧
    checkRateLimit RATE_LIMIT_CONFIG_general
        (some { count := 100, resetTime := 900000, lastRequest := 0,
                blockedUntil := some 500000 }) 600000 =
      ({ allowed := false, retryAfter := some 300, blockRemaining := none },
       some { count := 100, resetTime := 900000, lastRequest := 0,
              blockedUntil := some 900000 }) := by
  have h := general_tier_reblocks
    { count := 100, resetTime := 900000, lastRequest := 0, blockedUntil := some 500000 }
    500000 600000 rfl (by decide) (by decide) (by decide)
  simpa using h

/-! ## Cache lemmas -/

/-- Lookup after `Map.set` on the same key finds the new value. -/
theorem mapGet_mapSet_self (k : String) (v : CachedItem) (c : CacheMap) :
    mapGet k (mapSet k v c) = some v := by
  induction c with
  | nil => simp [mapSet, mapGet]
  | cons hd tl ih =>
    obtain ⟨k', v'⟩ := hd
    by_cases h : k' == k
    · simp [mapSet, mapGet, h]
    · simp only [mapSet, h, Bool.false_eq_true, if_false]
      simp only [mapGet, h, Bool.false_eq_true, if_false]
      exact ih

/-- `Map.set` grows the map by at most one entry. -/
theorem mapSet_length_le (k : String) (v : CachedItem) (c : CacheMap) :
    (mapSet k v c).length ≤ c.length + 1 := by
  induction c with
  | nil => simp [mapSet]
  | cons hd tl ih =>
    obtain ⟨k', v'⟩ := hd
    by_cases h : k' == k
    · simp [mapSet, h]
    · simp only [mapSet, h, Bool.false_eq_true, if_false, List.length_cons]
      omega

/-- The delete loop of the eviction branch: folding `Map.delete` over a list
of entries filters out every entry whose key occurs in that list. -/
theorem foldl_mapDelete_eq_filter (ks : List (String × CachedItem)) (c : CacheMap) :
    ks.foldl (fun acc e => mapDelete e.1 acc) c =
      c.filter (fun x => !(ks.any (fun e => x.1 == e.1))) := by
  induction ks generalizing c with
  | nil => simp [List.filter_true]
  | cons e ks ih =>
    simp only [List.foldl_cons]
    rw [ih]
    unfold mapDelete
    rw [List.filter_filter]
    apply List.filter_congr
    intro x _
    simp [Bool.not_or, bne, Bool.and_comm]

/-- Evicting from a cache with pairwise-distinct keys removes exactly
`evictBatch maxSize` entries, and every removed entry's timestamp is at
most every kept entry's timestamp. -/
theorem evictOldest_spec (maxSize : Nat) (cache : CacheMap)
    (hnodup : (cache.map Prod.fst).Nodup) :
    (evictOldest maxSize cache).length = cache.length - evictBatch maxSize ∧
    ∀ kept ∈ evictOldest maxSize cache,
      ∀ removed ∈ (List.insertionSort olderFirst cache).take (evictBatch maxSize),
        removed.2.timestamp ≤ kept.2.timestamp := by
  have hperm : (List.insertionSort olderFirst cache).Perm cache :=
    List.perm_insertionSort olderFirst cache
  have hsort : List.Sorted olderFirst (List.insertionSort olderFirst cache) :=
    List.sorted_insertionSort olderFirst cache
  set s := List.insertionSort olderFirst cache with hs
  set n := evictBatch maxSize with hn
  have hsplit : s.take n ++ s.drop n = s := List.take_append_drop n s
  have hnodupS : (s.map Prod.fst).Nodup :=
    (hperm.symm.map Prod.fst).nodup hnodup
  have hdisj : (((s.take n).map Prod.fst)).Disjoint ((s.drop n).map Prod.fst) := by
    have : (((s.take n).map Prod.fst) ++ ((s.drop n).map Prod.fst)).Nodup := by
      rw [← List.map_append, hsplit]; exact hnodupS
    exact (List.nodup_append.mp this).2.2
  have hfold : evictOldest maxSize cache =
      cache.filter (fun x => !((s.take n).any (fun e => x.1 == e.1))) := by
    unfold evictOldest
    rw [← hs, ← hn]
    exact foldl_mapDelete_eq_filter (s.take n) cache
  -- entries of the taken prefix fail the filter predicate
  have htaken : ∀ a ∈ s.take n, (!((s.take n).any (fun e => a.1 == e.1))) = false := by
    intro a ha
    have : (s.take n).any (fun e => a.1 == e.1) = true :=
      List.any_eq_true.mpr ⟨a, ha, by simp⟩
    simp [this]
  -- entries of the dropped part pass the filter predicate
  have hdropped : ∀ a ∈ s.drop n, (!((s.take n).any (fun e => a.1 == e.1))) = true := by
    intro a ha
    have : (s.take n).any (fun e => a.1 == e.1) = false := by
      by_contra hfalse
      have hany : (s.take n).any (fun e => a.1 == e.1) = true := by
        cases h' : (s.take n).any (fun e => a.1 == e.1) with
        | true => rfl
        | false => exact absurd h' hfalse
      obtain ⟨e, he, heq⟩ := List.any_eq_true.mp hany
      have hkey : a.1 = e.1 := by simpa using heq
      exact hdisj (hkey ▸ List.mem_map_of_mem Prod.fst he)
        (List.mem_map_of_mem Prod.fst ha)
    simp [this]
  constructor
  · -- exactly `n` entries disappear
    have hpermF := (hperm.symm.filter (fun x => !((s.take n).any (fun e => x.1 == e.1))))
    rw [hfold, hpermF.length_eq]
    have hgen : ∀ p : String × CachedItem → Bool, (∀ a ∈ s.take n, p a = false) →
        (∀ a ∈ s.drop n, p a = true) → s.filter p = s.drop n := by
      intro p h1 h2
      conv_lhs => rw [← hsplit]
      rw [List.filter_append, List.filter_eq_nil_iff.mpr (by intro a ha; simp [h1 a ha]),
        List.filter_eq_self.mpr h2]
      simp
    rw [hgen _ htaken hdropped, List.length_drop, hperm.length_eq]
  · intro kept hkept removed hremoved
    rw [hfold] at hkept
    obtain ⟨hkc, hkp⟩ := List.mem_filter.mp hkept
    have hks : kept ∈ s := (hperm.mem_iff).mpr hkc
    have hkd : kept ∈ s.drop n := by
      rcases (List.mem_append.mp (by rw [hsplit]; exact hks)) with h | h
      · rw [htaken kept h] at hkp; cases hkp
      · exact h
    have := (List.pairwise_append.mp (by rw [hsplit]; exact hsort)).2.2
    exact this removed hremoved kept hkd

/-- A concrete weather snapshot used in witnesses. -/
def sampleWeather : WeatherData :=
  { name := "London",
    main := { temp := 15, feels_like := 14, humidity := 80, pressure := 1012 },
    weather := [{ main := "Clouds", description := "overcast clouds", icon := "04d" }],
    wind := { speed := 5, deg := 200 },
    sys := { country := "GB", sunrise := 1, sunset := 2 },
    coord := { lat := 51, lon := 0 } }

/-- **C4 counterexample.** With the configurable value `cacheMaxSize = 0`
(e.g. `CACHE_MAX_SIZE=0`), `setCachedData` does not preserve
`cache.size ≤ maxSize`: the eviction batch `ceil(0 * 0.1)` is empty, and
inserting into an empty cache yields size `1 > 0`. -/
theorem cache_sizeBound_counterexample :
    ([] : CacheMap).length ≤ 0 ∧
    0 < (setCachedData true 0 [] "weather:london" sampleWeather 0).length := by
  refine ⟨by decide, by decide⟩

/-- **C4 (amended).** For every configured `cacheMaxSize ≥ 1`:
`setCachedData` preserves `cache.size ≤ cacheMaxSize` (keys of a JS map are
pairwise distinct), and when invoked at capacity (`cache.size =
cacheMaxSize`) the eviction step removes exactly `ceil(cacheMaxSize * 0.1)`
entries, all with timestamps at most those of every kept entry, before the
new entry is inserted. -/
theorem setCachedData_invariant (cacheMaxSize : Nat) (hmax : 1 ≤ cacheMaxSize)
    (cache : CacheMap) (hnodup : (cache.map Prod.fst).Nodup)
    (hsize : cache.length ≤ cacheMaxSize)
    (k : String) (v : WeatherData) (now : Nat) :
    (setCachedData true cacheMaxSize cache k v now).length ≤ cacheMaxSize ∧
    (cache.length = cacheMaxSize →
      (evictOldest cacheMaxSize cache).length = cacheMaxSize - evictBatch cacheMaxSize ∧
      ∀ kept ∈ evictOldest cacheMaxSize cache,
        ∀ removed ∈ (List.insertionSort olderFirst cache).take (evictBatch cacheMaxSize),
          removed.2.timestamp ≤ kept.2.timestamp) := by
  have hbatch1 : 1 ≤ evictBatch cacheMaxSize := by unfold evictBatch; omega
  have hbatchle : evictBatch cacheMaxSize ≤ cacheMaxSize := by unfold evictBatch; omega
  constructor
  · unfold setCachedData
    simp only [Bool.not_true, Bool.false_eq_true, if_false]
    by_cases h : cacheMaxSize ≤ cache.length
    · have hfull : cache.length = cacheMaxSize := by omega
      have hev := (evictOldest_spec cacheMaxSize cache hnodup).1
      have hle := mapSet_length_le k { data := v, timestamp := now }
        (evictOldest cacheMaxSize cache)
      simp only [h, if_true]
      omega
    · have hle := mapSet_length_le k { data := v, timestamp := now } cache
      simp only [h, if_false]
      omega
  · intro hfull
    have h := evictOldest_spec cacheMaxSize cache hnodup
    rw [hfull] at h
    exact h

/-- **C4 witness.** A cache of two entries at capacity 2: the eviction
removes exactly one entry (the older, timestamp 3), keeps the newer
(timestamp 5), and the insert keeps the size within 2. -/
theorem setCachedData_invariant_witness :
    (setCachedData true 2
        [("a", { data := sampleWeather, timestamp := 5 }),
         ("b", { data := sampleWeather, timestamp := 3 })] "c" sampleWeather 10).length ≤ 2 ∧
    (([("a", { data := sampleWeather, timestamp := 5 }),
       ("b", { data := sampleWeather, timestamp := 3 })] : CacheMap).length = 2 →
      (evictOldest 2
          [("a", { data := sampleWeather, timestamp := 5 }),
           ("b", { data := sampleWeather, timestamp := 3 })]).length = 2 - evictBatch 2 ∧
      ∀ kept ∈ evictOldest 2
          [("a", { data := sampleWeather, timestamp := 5 }),
           ("b", { data := sampleWeather, timestamp := 3 })],
        ∀ removed ∈ (List.insertionSort olderFirst
            [("a", { data := sampleWeather, timestamp := 5 }),
             ("b", { data := sampleWeather, timestamp := 3 })]).take (evictBatch 2),
          removed.2.timestamp ≤ kept.2.timestamp) :=
  setCachedData_invariant 2 (by decide)
    [("a", { data := sampleWeather, timestamp := 5 }),
     ("b", { data := sampleWeather, timestamp := 3 })]
    (by decide) (by decide) "c" sampleWeather 10

/-- **C8.** Cache round-trip: with caching enabled, `setCachedData k v` at
time `t1` followed by `getCachedData k` at time `t2` within the TTL
(`t2 - t1 ≤ cacheTtlSeconds * 1000`) returns `v`, for every prior cache
state. -/
theorem cache_roundTrip (cacheTtlSeconds cacheMaxSize : Nat) (cache : CacheMap)
    (k : String) (v : WeatherData) (t1 t2 : Nat)
    (h : t2 - t1 ≤ cacheTtlSeconds * 1000) :
    (getCachedData true cacheTtlSeconds
        (setCachedData true cacheMaxSize cache k v t1) k t2).1 = some v := by
  unfold setCachedData getCachedData
  simp only [Bool.not_true, Bool.false_eq_true, if_false]
  rw [mapGet_mapSet_self]
  have : ¬ cacheTtlSeconds * 1000 < t2 - t1 := Nat.not_lt.mpr h
  simp [this]

/-- **C8 witness.** Storing the sample snapshot at time 0 and reading it at
time 1000 with a 300-second TTL returns the snapshot. -/
theorem cache_roundTrip_witness :
    (getCachedData true 300
        (setCachedData true 100 [] "weather:london" sampleWeather 0)
        "weather:london" 1000).1 = some sampleWeather :=
  cache_roundTrip 300 100 [] "weather:london" sampleWeather 0 1000 (by decide)

/-! ## City-validation lemmas -/

/-- Every element of `dropWhile p l` satisfying `p` is the same as every
element of `l` satisfying `p`. -/
theorem dropWhile_all_iff (p : Char → Bool) (l : List Char) :
    (∀ x ∈ l.dropWhile p, p x = true) ↔ ∀ x ∈ l, p x = true := by
  induction l with
  | nil => simp
  | cons a l ih =>
    by_cases h : p a = true
    · simp [List.dropWhile_cons, h, ih, List.forall_mem_cons]
    · simp [List.dropWhile_cons, h]

/-- `trim` yields the empty string exactly when every character is
whitespace. -/
theorem jsTrim_eq_nil_iff (l : List Char) :
    jsTrim l = [] ↔ ∀ c ∈ l, jsWhitespace c = true := by
  unfold jsTrim
  rw [List.reverse_eq_nil_iff, List.dropWhile_eq_nil_iff]
  constructor
  · intro h
    exact (dropWhile_all_iff jsWhitespace l).mp
      (fun x hx => h x (List.mem_reverse.mpr hx))
  · intro h x hx
    exact h x ((List.dropWhile_sublist jsWhitespace).mem (List.mem_reverse.mp hx))

/-- `validateCity` fails (always with a `ValidationError`, HTTP 400, code
`VALIDATION_ERROR`) exactly when the city is empty, trims to the empty
string, exceeds 100 characters, or contains a character outside
`[a-zA-Z\s\-']`. -/
theorem validateCity_error_iff (city : String) :
    (∃ e, validateCity city = .error e ∧ e.code = some "VALIDATION_ERROR" ∧
      e.statusCode = 400) ↔
      (city.data = [] ∨ jsTrim city.data = [] ∨ 100 < city.length ∨
        ∃ c ∈ city.data, allowedCityChar c = false) := by
  unfold validateCity
  split_ifs with h1 h2 h3 h4
  · simp only [beq_iff_eq] at h1
    simp [ValidationError, h1]
  · simp only [beq_iff_eq, List.length_eq_zero] at h2
    simp [ValidationError, h2]
  · simp [ValidationError, h3]
  · -- the sanitized string equals the original: validation passes
    simp only [beq_iff_eq, List.filter_eq_self] at h4
    simp only [beq_iff_eq] at h1
    simp only [beq_iff_eq, List.length_eq_zero] at h2
    constructor
    · rintro ⟨e, he, -⟩; cases he
    · rintro (h | h | h | ⟨c, hc, hbad⟩)
      · exact absurd h h1
      · exact absurd h h2
      · exact absurd h h3
      · rw [h4 c hc] at hbad; cases hbad
  · -- the sanitized string differs: some character is outside the class
    simp only [beq_iff_eq, List.filter_eq_self] at h4
    push_neg at h4
    obtain ⟨c, hc, hbad⟩ := h4
    refine ⟨fun _ => Or.inr (Or.inr (Or.inr ⟨c, hc, ?_⟩)), fun _ => ?_⟩
    · cases h : allowedCityChar c with
      | true => exact absurd h hbad
      | false => rfl
    · exact ⟨_, rfl, rfl, rfl⟩

/-- **C7.** `validateCity` throws a `ValidationError` exactly when the city
string is empty, whitespace-only after trimming, longer than 100
characters, or contains a character other than (ASCII) letters, spaces,
hyphens and apostrophes; it rejects `""`, a 101-character string and
`"London<script>"`, and accepts `"Cape Town"` and `"O'ahu"`. -/
theorem validateCity_spec (city : String) :
    ((∃ e, validateCity city = .error e ∧ e.code = some "VALIDATION_ERROR" ∧
        e.statusCode = 400) ↔
      (city.data = [] ∨ jsTrim city.data = [] ∨ 100 < city.length ∨
        ∃ c ∈ city.data, allowedCityChar c = false)) ∧
    (validateCity "").isOk = false ∧
    (validateCity (String.mk (List.replicate 101 'a'))).isOk = false ∧
    (validateCity "London<script>").isOk = false ∧
    (validateCity "Cape Town").isOk = true ∧
    (validateCity "O'ahu").isOk = true :=
  ⟨validateCity_error_iff city, by decide, by decide, by decide, by decide, by decide⟩

/-- A character with code point at least 128 that is not in the `\s` class
is rejected by the `[a-zA-Z\s\-']` whitelist. -/
theorem allowedCityChar_nonAscii (c : Char) (hval : 128 ≤ c.toNat)
    (hws : jsWhitespace c = false) : allowedCityChar c = false := by
  unfold allowedCityChar
  rw [hws]
  have hz : decide (c.toNat ≤ 'z'.toNat) = false := decide_eq_false (by
    have : 'z'.toNat = 122 := rfl
    omega)
  have hZ : decide (c.toNat ≤ 'Z'.toNat) = false := decide_eq_false (by
    have : 'Z'.toNat = 90 := rfl
    omega)
  have hd : (c == '-') = false := beq_eq_false_iff_ne.mpr (by
    intro h
    rw [h] at hval
    exact absurd hval (by decide))
  have ha : (c == '\'') = false := beq_eq_false_iff_ne.mpr (by
    intro h
    rw [h] at hval
    exact absurd hval (by decide))
  simp [hz, hZ, hd, ha]
  omega

/-- **C10.** The letter check of `validateCity` is ASCII-only: a city
containing a character with code point ≥ 128 outside the `\s` class — in
particular every non-ASCII letter, such as the `ã` in `"São Paulo"` — is
rejected with a `ValidationError`. -/
theorem validateCity_ascii_only (city : String) (c : Char) (hc : c ∈ city.data)
    (hval : 128 ≤ c.toNat) (hws : jsWhitespace c = false) :
    (∃ e, validateCity city = .error e ∧ e.code = some "VALIDATION_ERROR" ∧
      e.statusCode = 400) ∧
    (validateCity "São Paulo").isOk = false := by
  refine ⟨?_, by decide⟩
  rw [validateCity_error_iff]
  exact Or.inr (Or.inr (Or.inr ⟨c, hc, allowedCityChar_nonAscii c hval hws⟩))

/-- **C10 witness.** `"São Paulo"` contains `ã` (code point 227, not
whitespace), so validation fails on it. -/
theorem validateCity_ascii_only_witness :
    (∃ e, validateCity "São Paulo" = .error e ∧ e.code = some "VALIDATION_ERROR" ∧
      e.statusCode = 400) ∧
    (validateCity "São Paulo").isOk = false :=
  validateCity_ascii_only "São Paulo" 'ã' (by decide) (by decide) (by decide)

/-! ## Trusted-host lemmas -/

/-- `isTrustedHost` is true exactly when the host equals a trusted host or
has `"." ++ trustedHost` as a suffix. -/
theorem isTrustedHost_iff (trustedHosts : List String) (host : String) :
    isTrustedHost trustedHosts host = true ↔
      ∃ th ∈ trustedHosts, host = th ∨ ("." ++ th).data <:+ host.data := by
  simp [isTrustedHost, List.any_eq_true, List.isSuffixOf_iff_suffix, beq_iff_eq]

/-- A nonempty-host requirement is not needed, but the configured trusted
hosts are nonempty strings (`parseStringArray` filters out empty items), and
then the empty host never matches. -/
theorem isTrustedHost_empty (trustedHosts : List String)
    (hne : ∀ th ∈ trustedHosts, th ≠ "") :
    isTrustedHost trustedHosts "" = false := by
  cases h : isTrustedHost trustedHosts "" with
  | false => rfl
  | true =>
    obtain ⟨th, hth, hcase⟩ := (isTrustedHost_iff trustedHosts "").mp h
    rcases hcase with hcase | hcase
    · exact absurd hcase.symm (hne th hth)
    · have := List.suffix_nil.mp hcase
      rw [String.data_append] at this
      cases this

/-- **C5.** `isTrustedHost host` is true iff `host` exactly equals some
configured trusted host or ends with `"."` followed by one; in particular
`"api.example.com"` is trusted when `"example.com"` is configured,
`"evilexample.com"` is not, and (the configured hosts being nonempty
strings) an empty host is never trusted. -/
theorem isTrustedHost_spec (trustedHosts : List String) (host : String)
    (hne : ∀ th ∈ trustedHosts, th ≠ "") :
    (isTrustedHost trustedHosts host = true ↔
      ∃ th ∈ trustedHosts, host = th ∨ ("." ++ th).data <:+ host.data) ∧
    isTrustedHost ["example.com"] "api.example.com" = true ∧
    isTrustedHost ["example.com"] "evilexample.com" = false ∧
    isTrustedHost trustedHosts "" = false :=
  ⟨isTrustedHost_iff trustedHosts host, by decide, by decide,
    isTrustedHost_empty trustedHosts hne⟩

/-- **C5 witness.** The spec instantiated at the configuration
`["example.com"]` and the host `"api.example.com"`. -/
theorem isTrustedHost_spec_witness :
    (isTrustedHost ["example.com"] "api.example.com" = true ↔
      ∃ th ∈ ["example.com"], "api.example.com" = th ∨
        ("." ++ th).data <:+ "api.example.com".data) ∧
    isTrustedHost ["example.com"] "api.example.com" = true ∧
    isTrustedHost ["example.com"] "evilexample.com" = false ∧
    isTrustedHost ["example.com"] "" = false :=
  isTrustedHost_spec ["example.com"] "api.example.com" (by decide)

/-! ## Upstream-fetch lemmas -/

/-- **C6.** When the upstream provider responds 401, `fetchWeatherData`
fails with an error whose `statusCode` is 502 and whose `code` is
`EXTERNAL_API_ERROR`, and the endpoint's error funnel (`handleError`)
leaves that status at 502 — never 401 — so the client-facing response
status is 502. -/
theorem upstream401_maps_to_502 (city : String) (resp : UpstreamResponse)
    (h : resp.status = 401) :
    ∃ e, fetchWeatherData city (.response resp) = .error e ∧
      e.statusCode = 502 ∧ e.code = some "EXTERNAL_API_ERROR" ∧
      (handleError (.api e)).statusCode = 502 ∧
      (handleError (.api e)).statusCode ≠ 401 := by
  refine ⟨ExternalApiError "Invalid API key for OpenWeather service"
    "OpenWeather API" (some 401), ?_, rfl, rfl, rfl, by decide⟩
  simp [fetchWeatherData, h, responseOk]

/-- **C6 witness.** A concrete 401 upstream response is mapped to the 502
external-API error. -/
theorem upstream401_maps_to_502_witness :
    ∃ e, fetchWeatherData "London" (.response { status := 401, body := none }) =
        .error e ∧
      e.statusCode = 502 ∧ e.code = some "EXTERNAL_API_ERROR" ∧
      (handleError (.api e)).statusCode = 502 ∧
      (handleError (.api e)).statusCode ≠ 401 :=
  upstream401_maps_to_502 "London" { status := 401, body := none } rfl
